import Mathlib

/-
Shallow embedding of the LED-stage scene editor (src/main_oop.js and the
near-duplicate variant in src/unnamed/part_000).

Modelling conventions:
  * textures, geometries and materials carry numeric identities, so that
    reference equality in the JavaScript source becomes id equality here;
  * a mesh subtree is represented by the list of its nodes in traversal
    (preorder) order, which is the only aspect of the tree shape that the
    traversals in the source observe;
  * numbers that the source manipulates exactly (assignments, comparisons)
    are rationals; the one transcendental computation (field of view) lives
    in the reals;
  * the render / encode / asset-load steps are oracles: a Bool or Option
    parameter says whether the external call succeeds, and a JavaScript
    exception is an Except.error carrying the state at the throw point.
-/

set_option maxHeartbeats 1000000

abbrev TextureId := Nat

/-- A material as found inside a loaded mesh: name, texture slots and
emissive intensity. emissiveIntensity is Option to model a JS field that can
be undefined. -/
structure Material where
  matId : Nat
  name : String
  map : Option TextureId
  emissiveMap : Option TextureId
  normalMap : Option TextureId
  emissiveIntensity : Option ℚ
  deriving DecidableEq, Repr

/-- One node of a loaded mesh subtree, as `traverse` visits it. -/
structure MeshNode where
  isMesh : Bool
  materials : List Material
  geometry : Option Nat
  deriving DecidableEq, Repr

/-- A mesh subtree, linearized in traversal (preorder) order. -/
abbrev Mesh := List MeshNode

/-- All materials of the subtree in traversal order, as the
`mesh.traverse ... materials.forEach` pattern of the source visits them. -/
def allMaterials (mesh : Mesh) : List Material :=
  (mesh.filter (·.isMesh)).foldr (fun n acc => n.materials ++ acc) []

/-- All geometries of the subtree (the `child.geometry` of each mesh node). -/
def allGeometries (mesh : Mesh) : List Nat :=
  (mesh.filter (·.isMesh)).filterMap (·.geometry)

/-- JavaScript `x || 1` on a possibly-undefined number: 1 when the value is
absent or zero (falsy), the value itself otherwise. Used by
`mat.emissiveIntensity || 1` in LEDScreen.findTargetMaterial. -/
def jsOrOne : Option ℚ → ℚ
  | none => 1
  | some v => if v = 0 then 1 else v

/-- Global cross-studio screen state owned by the LEDStageApp controller:
globalCustomTexture, globalCustomEmissiveTexture, globalBrightness. -/
structure AppGlobals where
  globalCustomTexture : Option TextureId
  globalCustomEmissiveTexture : Option TextureId
  globalBrightness : ℚ
  deriving DecidableEq, Repr

/-- The LEDScreen object state (class LEDScreen, src/main_oop.js lines
12-27): bound material, bind-time originals, current custom texture and
brightness. -/
structure LEDScreen where
  materialName : String
  material : Option Material
  originalBaseColorTexture : Option TextureId
  originalEmissiveTexture : Option TextureId
  originalEmissiveIntensity : ℚ
  currentTexture : Option TextureId
  brightness : ℚ
  deriving DecidableEq, Repr

/-- Field defaults set in the LEDScreen constructor before
findTargetMaterial runs. -/
def LEDScreen.base (name : String) : LEDScreen :=
  { materialName := name
    material := none
    originalBaseColorTexture := none
    originalEmissiveTexture := none
    originalEmissiveIntensity := 1
    currentTexture := none
    brightness := 1 }

/-- The assignments performed for one name-matching material inside
findTargetMaterial (lines 37-42): store the material and capture its
original map, emissive map and intensity (with the `|| 1` default). -/
def applyBind (mat : Material) (s : LEDScreen) : LEDScreen :=
  { s with
    material := some mat
    originalBaseColorTexture := mat.map
    originalEmissiveTexture := mat.emissiveMap
    originalEmissiveIntensity := jsOrOne mat.emissiveIntensity
    brightness := jsOrOne mat.emissiveIntensity }

/-- The traversal of findTargetMaterial over the flattened material list:
every matching material performs the assignments, so a later match
overwrites an earlier one. -/
def bindScan (name : String) : List Material → LEDScreen → LEDScreen
  | [], s => s
  | mat :: rest, s =>
      bindScan name rest (if mat.name = name then applyBind mat s else s)

/-- LEDScreen.findTargetMaterial (lines 29-56) as a state transformer. -/
def LEDScreen.findTargetMaterial (mesh : Mesh) (s : LEDScreen) : LEDScreen :=
  bindScan s.materialName (allMaterials mesh) s

/-- LEDScreen.logAvailableMaterials (lines 58-68): the diagnostic list of
material names printed when no material matched (`mat.name || 'Unnamed'`). -/
def logAvailableMaterials (mesh : Mesh) : List String :=
  (allMaterials mesh).map (fun mat => if mat.name = "" then "Unnamed" else mat.name)

/-- LEDScreen.applyGlobalState (lines 70-88), run at the end of the
constructor: when a material was bound and an app reference exists, write
the global brightness into the material and, when a global custom texture
exists, write the global texture pair into the material slots. -/
def LEDScreen.applyGlobalState (appOpt : Option AppGlobals) (s : LEDScreen) : LEDScreen :=
  match s.material, appOpt with
  | some m, some a =>
      let m1 := { m with emissiveIntensity := some a.globalBrightness }
      let s1 := { s with material := some m1, brightness := a.globalBrightness }
      match a.globalCustomTexture with
      | some t =>
          { s1 with
            material := some { m1 with map := some t, emissiveMap := a.globalCustomEmissiveTexture }
            currentTexture := some t }
      | none => s1
  | _, _ => s

/-- The LEDScreen constructor (lines 13-27): defaults, findTargetMaterial,
applyGlobalState. -/
def LEDScreen.construct (mesh : Mesh) (name : String) (appOpt : Option AppGlobals) : LEDScreen :=
  ((LEDScreen.base name).findTargetMaterial mesh).applyGlobalState appOpt

/-- An LEDScreen together with the (possibly absent) owning app reference,
since the screen methods also write the app globals. -/
structure ScreenSys where
  screen : LEDScreen
  app : Option AppGlobals
  deriving DecidableEq, Repr

/-- LEDScreen.setCustomTexture (lines 90-122), with cropping and texture
loading abstracted into the fresh texture id `t`: guard on an unbound
material, then assign `t` to both slots, remember it as current, and store
it in both app globals. -/
def ScreenSys.setCustomTexture (t : TextureId) (s : ScreenSys) : ScreenSys :=
  match s.screen.material with
  | none => s
  | some m =>
      { screen :=
          { s.screen with
            material := some { m with map := some t, emissiveMap := some t }
            currentTexture := some t }
        app := s.app.map fun a =>
          { a with globalCustomTexture := some t, globalCustomEmissiveTexture := some t } }

/-- LEDScreen.setBrightness (lines 124-135): guard on an unbound material,
then set brightness, material intensity and the global brightness. -/
def ScreenSys.setBrightness (v : ℚ) (s : ScreenSys) : ScreenSys :=
  match s.screen.material with
  | none => s
  | some m =>
      { screen :=
          { s.screen with
            brightness := v
            material := some { m with emissiveIntensity := some v } }
        app := s.app.map fun a => { a with globalBrightness := v } }

/-- LEDScreen.resetToOriginal (lines 137-156): guard on an unbound material,
restore the bind-time originals into the material, clear the current custom
texture, and clear the app globals. -/
def ScreenSys.resetToOriginal (s : ScreenSys) : ScreenSys :=
  match s.screen.material with
  | none => s
  | some m =>
      { screen :=
          { s.screen with
            material := some
              { m with
                map := s.screen.originalBaseColorTexture
                emissiveMap := s.screen.originalEmissiveTexture
                emissiveIntensity := some s.screen.originalEmissiveIntensity }
            brightness := s.screen.originalEmissiveIntensity
            currentTexture := none }
        app := s.app.map fun a =>
          { a with
            globalCustomTexture := none
            globalCustomEmissiveTexture := none
            globalBrightness := s.screen.originalEmissiveIntensity } }

/-- One user-driven mutation of a bound screen, for sequencing. -/
inductive ScreenOp where
  | applyTexture (t : TextureId)
  | setBrightness (v : ℚ)
  deriving DecidableEq, Repr

/-- Run a finite sequence of screen mutations. -/
def runScreenOps : List ScreenOp → ScreenSys → ScreenSys
  | [], s => s
  | ScreenOp.applyTexture t :: rest, s => runScreenOps rest (s.setCustomTexture t)
  | ScreenOp.setBrightness v :: rest, s => runScreenOps rest (s.setBrightness v)

/-- The last material of the list whose name matches: the material that the
overwrite-on-every-match traversal of findTargetMaterial ends up storing. -/
def lastMatch (name : String) : List Material → Option Material
  | [] => none
  | mat :: rest =>
      match lastMatch name rest with
      | some r => some r
      | none => if mat.name = name then some mat else none

/-- The first material of the list whose name matches. This definition
follows the words of the specification (scan stores the FIRST match); it is
compared against the behavior of the source. -/
def firstMatch (name : String) : List Material → Option Material
  | [] => none
  | mat :: rest => if mat.name = name then some mat else firstMatch name rest

/-- LEDStudioManager.disposeStudioMesh (lines 675-702), texture part: the
texture ids on which dispose is called. Textures of the material named
M_WhiteScreen are skipped by the guard. -/
def disposedTexturesOf (mesh : Mesh) : List TextureId :=
  (allMaterials mesh).foldr
    (fun mat acc =>
      (if mat.name = "M_WhiteScreen" then []
       else [mat.map, mat.normalMap, mat.emissiveMap].filterMap id) ++ acc)
    []

/-- disposeStudioMesh, material part: material.dispose() runs for every
material, screen material included. -/
def disposedMaterialIdsOf (mesh : Mesh) : List Nat :=
  (allMaterials mesh).map (·.matId)

/-- disposeStudioMesh, geometry part: child.geometry.dispose() for every
mesh node. -/
def disposedGeometryIdsOf (mesh : Mesh) : List Nat :=
  allGeometries mesh

/-- Result of LEDStageApp.onStudioChange: the freshly bound screen, the app
globals afterwards, and what the disposal pass of the studio switch
disposed. -/
structure ChangeResult where
  ledScreen : LEDScreen
  app : AppGlobals
  disposedTextures : List TextureId
  disposedMaterials : List Nat
  disposedGeometries : List Nat
  deriving DecidableEq, Repr

/-- LEDStageApp.onStudioChange (lines 954-996), successful-switch path:
capture globalBrightness and the has-custom-texture flag, dispose the old
studio mesh (switchStudio with preserveScreenState = false), construct a new
LEDScreen on the new mesh, reapply the global texture pair when the flag was
set, then setBrightness with the captured brightness. -/
def onStudioChange (a : AppGlobals) (oldMesh : Option Mesh) (newMesh : Mesh) : ChangeResult :=
  let currentBrightness := a.globalBrightness
  let hasCustomTexture := a.globalCustomTexture.isSome
  let dTex := match oldMesh with | some m => disposedTexturesOf m | none => []
  let dMat := match oldMesh with | some m => disposedMaterialIdsOf m | none => []
  let dGeo := match oldMesh with | some m => disposedGeometryIdsOf m | none => []
  let scr0 := LEDScreen.construct newMesh "M_WhiteScreen" (some a)
  let scr1 :=
    if hasCustomTexture ∧ a.globalCustomTexture.isSome then
      { scr0 with
        material := scr0.material.map fun m =>
          { m with map := a.globalCustomTexture, emissiveMap := a.globalCustomEmissiveTexture }
        currentTexture := a.globalCustomTexture }
    else scr0
  let sys := ScreenSys.setBrightness currentBrightness { screen := scr1, app := some a }
  { ledScreen := sys.screen
    app := sys.app.getD a
    disposedTextures := dTex
    disposedMaterials := dMat
    disposedGeometries := dGeo }

/-- LEDStudioManager state relevant to a studio switch: the known studios,
the current-studio pointers and the environment meshes present in the scene
(by id), plus the meshes disposed so far. -/
structure ManagerState where
  availableStudios : List String
  currentStudio : Option String
  currentStudioMesh : Option Nat
  sceneMeshes : List Nat
  disposedMeshes : List Nat
  deriving DecidableEq, Repr

/-- LEDStudioManager.switchStudio (lines 534-579) with the asset load as an
oracle: `load = none` models a GLTF load that fails (the loader invokes the
error callback, loadStudioMesh rejects, the catch block returns false). The
old environment is removed from the scene and disposed BEFORE the load is
attempted. -/
def switchStudio (load : Option Nat) (name : String) (s : ManagerState) :
    Bool × ManagerState :=
  if name ∈ s.availableStudios then
    let s1 :=
      match s.currentStudioMesh with
      | some m =>
          { s with
            sceneMeshes := s.sceneMeshes.erase m
            disposedMeshes := m :: s.disposedMeshes }
      | none => s
    match load with
    | none => (false, s1)
    | some nm =>
        (true,
          { s1 with
            sceneMeshes := nm :: s1.sceneMeshes
            currentStudioMesh := some nm
            currentStudio := some name })
  else (false, s)

/-- LEDStageApp.loadGLTFModel / loadPropFromLibrary error path: on a failed
model load the error callback only logs, so the set of placed models is
unchanged; on success the loaded mesh is inserted. -/
def loadGLTFModel (load : Option Nat) (placed : List Nat) : List Nat :=
  match load with
  | none => placed
  | some m => m :: placed

/-- Selection flag and id of one selectable entity (SceneObject or
CinemaCamera). -/
structure Ent where
  entId : Nat
  isSelected : Bool
  deriving DecidableEq, Repr

/-- The selection slot: a typed reference to a placed object or a cinema
camera, mirroring the instanceof dispatch of the controller. -/
inductive SelRef where
  | obj (entId : Nat)
  | cam (entId : Nat)
  deriving DecidableEq, Repr

/-- The LEDStageApp selection state: the two entity collections and the
selectedObject slot. -/
structure SelState where
  sceneObjects : List Ent
  cinemaCameras : List Ent
  selectedObject : Option SelRef
  deriving DecidableEq, Repr

/-- Set the isSelected flag of the entity with the given id (entity select
and deselect methods write the flag of the pointed-to object). -/
def setSel (b : Bool) (i : Nat) (l : List Ent) : List Ent :=
  l.map fun e => if e.entId = i then { e with isSelected := b } else e

/-- The `this.selectedObject.deselect()` step: clear the flag of the entity
the slot points at, if any. -/
def deselectCurrent (s : SelState) : SelState :=
  match s.selectedObject with
  | none => s
  | some (SelRef.obj i) => { s with sceneObjects := setSel false i s.sceneObjects }
  | some (SelRef.cam i) => { s with cinemaCameras := setSel false i s.cinemaCameras }

/-- LEDStageApp.selectObject (lines 1073-1098): no-op when the target is
already the selection, otherwise deselect the current entity and select the
target. -/
def selectObject (r : SelRef) (s : SelState) : SelState :=
  if s.selectedObject = some r then s
  else
    let s1 := deselectCurrent s
    match r with
    | SelRef.obj i =>
        { s1 with sceneObjects := setSel true i s1.sceneObjects, selectedObject := some r }
    | SelRef.cam i =>
        { s1 with cinemaCameras := setSel true i s1.cinemaCameras, selectedObject := some r }

/-- LEDStageApp.deselectAll (lines 1100-1108). -/
def deselectAll (s : SelState) : SelState :=
  { deselectCurrent s with selectedObject := none }

/-- LEDStageApp.deleteSelectedObject (lines 1367-1387): remove the selected
entity from its collection (its isSelected flag is never cleared, but the
entity leaves the union) and clear the slot. -/
def deleteSelectedObject (s : SelState) : SelState :=
  match s.selectedObject with
  | none => s
  | some (SelRef.obj i) =>
      { s with sceneObjects := s.sceneObjects.filter (fun e => e.entId != i), selectedObject := none }
  | some (SelRef.cam i) =>
      { s with cinemaCameras := s.cinemaCameras.filter (fun e => e.entId != i), selectedObject := none }

/-- Inserting a freshly loaded SceneObject (constructor sets
isSelected = false; generateUniqueId gives a fresh id). -/
def addSceneObject (i : Nat) (s : SelState) : SelState :=
  { s with sceneObjects := s.sceneObjects ++ [{ entId := i, isSelected := false }] }

/-- LEDStageApp.createCinemaCamera: a new camera with isSelected = false. -/
def addCinemaCamera (i : Nat) (s : SelState) : SelState :=
  { s with cinemaCameras := s.cinemaCameras ++ [{ entId := i, isSelected := false }] }

/-- One controller operation touching the selection slot or the entity
collections. Fresh-id side conditions reflect generateUniqueId. -/
inductive SelStep : SelState → SelState → Prop where
  | select (r : SelRef) (s : SelState) : SelStep s (selectObject r s)
  | deselect (s : SelState) : SelStep s (deselectAll s)
  | delete (s : SelState) : SelStep s (deleteSelectedObject s)
  | addObj (i : Nat) (s : SelState) (h : i ∉ s.sceneObjects.map Ent.entId) :
      SelStep s (addSceneObject i s)
  | addCam (i : Nat) (s : SelState) (h : i ∉ s.cinemaCameras.map Ent.entId) :
      SelStep s (addCinemaCamera i s)

/-- The controller starts with empty collections and an empty slot. -/
def initState : SelState :=
  { sceneObjects := [], cinemaCameras := [], selectedObject := none }

/-- States the controller can reach by the selection operations. -/
def ReachableSel (s : SelState) : Prop :=
  Relation.ReflTransGen SelStep initState s

/-- The selection invariant: at most one entity across both collections has
isSelected = true. -/
def atMostOneSelected (s : SelState) : Prop :=
  (s.sceneObjects ++ s.cinemaCameras).countP (·.isSelected) ≤ 1

/-- Inductive strengthening: a selected entity is the one the slot points
at, and ids are unique within each collection. -/
def goodState (s : SelState) : Prop :=
  (∀ e ∈ s.sceneObjects, e.isSelected = true → s.selectedObject = some (SelRef.obj e.entId)) ∧
  (∀ e ∈ s.cinemaCameras, e.isSelected = true → s.selectedObject = some (SelRef.cam e.entId)) ∧
  (s.sceneObjects.map Ent.entId).Nodup ∧
  (s.cinemaCameras.map Ent.entId).Nodup

/-- One renderable child of a placed model: emissive color (as a hex value),
emissive intensity, and the lazily captured pre-highlight pair stored on
child.userData. -/
structure ChildMesh where
  emissive : Nat
  emissiveIntensity : ℚ
  cachedEmissive : Option (Nat × ℚ)
  deriving DecidableEq, Repr

/-- The per-model state of class SceneObject relevant to highlighting. -/
structure SceneObject where
  children : List ChildMesh
  isSelected : Bool
  deriving DecidableEq, Repr

/-- SceneObject.storeOriginalMaterials (lines 218-228): capture the
pre-highlight emissive pair of each child, only when not already captured. -/
def storeOriginalMaterials (cs : List ChildMesh) : List ChildMesh :=
  cs.map fun c =>
    if c.cachedEmissive = none then
      { c with cachedEmissive := some (c.emissive, c.emissiveIntensity) }
    else c

/-- The SceneObject constructor (lines 202-216): isSelected false and the
originals captured once. -/
def SceneObject.construct (cs : List ChildMesh) : SceneObject :=
  { children := storeOriginalMaterials cs, isSelected := false }

/-- SceneObject.select (lines 230-247): early return when already selected,
otherwise overwrite every child emissive with the fixed highlight
(0x333333, intensity 0.3). -/
def SceneObject.select (o : SceneObject) : SceneObject :=
  if o.isSelected then o
  else
    { isSelected := true
      children := o.children.map fun c =>
        { c with emissive := 0x333333, emissiveIntensity := 3 / 10 } }

/-- SceneObject.deselect (lines 249-264): early return when not selected,
otherwise restore each child from its cached pair (children without a cache
are left alone). -/
def SceneObject.deselect (o : SceneObject) : SceneObject :=
  if o.isSelected then
    { isSelected := false
      children := o.children.map fun c =>
        match c.cachedEmissive with
        | some p => { c with emissive := p.1, emissiveIntensity := p.2 }
        | none => c }
  else o

/-- One call in an interleaved select/deselect sequence. -/
inductive SelOp where
  | sel
  | desel
  deriving DecidableEq, Repr

/-- Run a finite select/deselect sequence on a placed model. -/
def runSelOps : List SelOp → SceneObject → SceneObject
  | [], o => o
  | SelOp.sel :: rest, o => runSelOps rest o.select
  | SelOp.desel :: rest, o => runSelOps rest o.deselect

/-- The child list of a model constructed from fresh children after any
select/deselect history: cache holds the construction-time pair, emissive
fields are either that pair or the highlight, by the selection flag. -/
def afterOps (cs : List ChildMesh) (b : Bool) : List ChildMesh :=
  cs.map fun c =>
    { emissive := if b then 0x333333 else c.emissive
      emissiveIntensity := if b then 3 / 10 else c.emissiveIntensity
      cachedEmissive := some (c.emissive, c.emissiveIntensity) }

/-- Visibility flags of one cinema camera proxy: its frustum helper and its
body mesh. -/
structure CamVisual where
  helperVisible : Bool
  meshVisible : Bool
  deriving DecidableEq, Repr

/-- The scene visuals that the capture and preview protocols hide: every
camera proxy pair and the transform gizmo. -/
structure SceneVisuals where
  cameras : List CamVisual
  transformControlsVisible : Bool
  deriving DecidableEq, Repr

/-- The snapshot object built by hideCameraVisualsForCapture (lines
1390-1405). -/
structure VisSnapshot where
  cameras : List CamVisual
  transformControls : Bool
  deriving DecidableEq, Repr

/-- LEDStageApp.hideCameraVisualsForCapture: push every camera visibility
pair, hide everything, remember the gizmo flag. Returns the hidden scene and
the snapshot. -/
def hideCameraVisualsForCapture (v : SceneVisuals) : SceneVisuals × VisSnapshot :=
  ({ cameras := v.cameras.map fun _ => { helperVisible := false, meshVisible := false }
     transformControlsVisible := false },
   { cameras := v.cameras, transformControls := v.transformControlsVisible })

/-- The indexed restore loop of restoreCameraVisualsAfterCapture: walk the
current camera list, replacing each visibility pair by the snapshot entry at
the running index when one exists. -/
def restoreCams : List CamVisual → List CamVisual → List CamVisual
  | _, [] => []
  | [], cs => cs
  | p :: ps, _ :: cs => p :: restoreCams ps cs

/-- LEDStageApp.restoreCameraVisualsAfterCapture (lines 1408-1419). -/
def restoreCameraVisualsAfterCapture (snap : VisSnapshot) (v : SceneVisuals) : SceneVisuals :=
  { cameras := restoreCams snap.cameras v.cameras
    transformControlsVisible := snap.transformControls }

/-- CinemaCamera.capture (lines 409-437) over the visibility state, with the
render and encode steps as oracles. The source has no try/finally: a throw
in render or encode propagates before the restore call runs, so the error
branch carries the still-hidden scene. -/
def capture (renderOk encodeOk : Bool) (v : SceneVisuals) :
    Except SceneVisuals SceneVisuals :=
  let hs := hideCameraVisualsForCapture v
  if renderOk then
    if encodeOk then Except.ok (restoreCameraVisualsAfterCapture hs.2 hs.1)
    else Except.error hs.1
  else Except.error hs.1

/-- LEDStageApp.renderCameraPreview (lines 1155-1190): guard, then the same
inline hide / render / restore sequence, also without try/finally. -/
def renderCameraPreview (isCam renderOk : Bool) (v : SceneVisuals) :
    Except SceneVisuals SceneVisuals :=
  if isCam then
    let hs := hideCameraVisualsForCapture v
    if renderOk then Except.ok (restoreCameraVisualsAfterCapture hs.2 hs.1)
    else Except.error hs.1
  else Except.ok v

/-- Optical parameters of a CinemaCamera (defaults 50mm focal length, 24mm
sensor size). -/
structure CinemaCameraSettings where
  focalLength : ℚ
  sensorSize : ℚ
  deriving DecidableEq, Repr

/-- The field-of-view formula of CinemaCamera.updateCameraSettings (line
399): fov = 2 * atan(sensorSize / (2 * focalLength)) * 180 / pi, in
degrees. -/
noncomputable def computeFov (sensorSize focalLength : ℚ) : ℝ :=
  2 * Real.arctan ((sensorSize : ℝ) / (2 * (focalLength : ℝ))) * 180 / Real.pi

/-- The derived fieldOfView stored on the projection by
updateCameraSettings. -/
noncomputable def fieldOfView (c : CinemaCameraSettings) : ℝ :=
  computeFov c.sensorSize c.focalLength

/-- CinemaCamera.setFocalLength (lines 388-391). -/
def setFocalLength (l : ℚ) (c : CinemaCameraSettings) : CinemaCameraSettings :=
  { c with focalLength := l }

/-- CinemaCamera.setSensorSize (lines 393-396). -/
def setSensorSize (sz : ℚ) (c : CinemaCameraSettings) : CinemaCameraSettings :=
  { c with sensorSize := sz }

/- Concrete inputs used by witnesses and counterexamples. -/

def visBefore : SceneVisuals :=
  { cameras := [{ helperVisible := true, meshVisible := true }], transformControlsVisible := true }

def visHidden : SceneVisuals :=
  { cameras := [{ helperVisible := false, meshVisible := false }], transformControlsVisible := false }

def matFirst : Material :=
  { matId := 1, name := "M_WhiteScreen", map := some 10, emissiveMap := some 11,
    normalMap := none, emissiveIntensity := some 1 }

def matSecond : Material :=
  { matId := 2, name := "M_WhiteScreen", map := some 20, emissiveMap := some 21,
    normalMap := none, emissiveIntensity := some (1/2) }

def matWall : Material :=
  { matId := 3, name := "M_Wall", map := some 30, emissiveMap := none,
    normalMap := some 31, emissiveIntensity := none }

def meshTwoScreens : Mesh :=
  [{ isMesh := true, materials := [matFirst], geometry := some 100 },
   { isMesh := true, materials := [matSecond], geometry := some 101 }]

def oldMeshW : Mesh :=
  [{ isMesh := true, materials := [matWall], geometry := some 200 },
   { isMesh := true, materials := [matFirst], geometry := some 201 }]

def newMeshW : Mesh :=
  [{ isMesh := true, materials := [matSecond], geometry := some 300 }]

def sysUnbound : ScreenSys :=
  { screen := LEDScreen.base "M_WhiteScreen", app := none }

def appW : AppGlobals :=
  { globalCustomTexture := some 77, globalCustomEmissiveTexture := some 77,
    globalBrightness := 7/10 }

def preFailState : ManagerState :=
  { availableStudios := ["A", "B"], currentStudio := some "A",
    currentStudioMesh := some 7, sceneMeshes := [7], disposedMeshes := [] }

def childrenW : List ChildMesh :=
  [{ emissive := 5, emissiveIntensity := 2, cachedEmissive := none },
   { emissive := 9, emissiveIntensity := 1/4, cachedEmissive := none }]

def camW : CinemaCameraSettings := { focalLength := 50, sensorSize := 24 }

/- Helper lemmas about the bind traversal. -/

theorem applyBind_applyBind (r m : Material) (s : LEDScreen) :
    applyBind r (applyBind m s) = applyBind r s := rfl

theorem bindScan_eq (name : String) (ms : List Material) (s : LEDScreen) :
    bindScan name ms s =
      match lastMatch name ms with
      | none => s
      | some m => applyBind m s := by
  induction ms generalizing s with
  | nil => rfl
  | cons mat rest ih =>
    by_cases hm : mat.name = name
    · simp only [bindScan, if_pos hm, ih, lastMatch]
      cases h : lastMatch name rest with
      | some r => simp [h, applyBind_applyBind]
      | none => simp [h, hm]
    · simp only [bindScan, if_neg hm, ih, lastMatch]
      cases h : lastMatch name rest with
      | some r => simp [h]
      | none => simp [h, hm]

theorem applyGlobalState_none (s : LEDScreen) : s.applyGlobalState none = s := by
  cases h : s.material <;> simp [LEDScreen.applyGlobalState, h]

theorem base_materialName (name : String) : (LEDScreen.base name).materialName = name := rfl

theorem construct_none (mesh : Mesh) (name : String) :
    LEDScreen.construct mesh name none =
      bindScan name (allMaterials mesh) (LEDScreen.base name) := by
  unfold LEDScreen.construct LEDScreen.findTargetMaterial
  rw [base_materialName, applyGlobalState_none]

/-- Claim C9 (safety, confirmed): for a ScreenSurface with no bound
material, setCustomTexture, setBrightness and resetToOriginal are no-ops
that leave the whole observable state (screen fields and app globals)
unchanged; in the embedding each of them is total, mirroring the early
return guard that prevents any null dereference in the source. -/
theorem unbound_screen_mutations_are_noops (s : ScreenSys) (t : TextureId) (v : ℚ)
    (h : s.screen.material = none) :
    s.setCustomTexture t = s ∧ s.setBrightness v = s ∧ s.resetToOriginal = s := by
  refine ⟨?_, ?_, ?_⟩ <;>
    simp [ScreenSys.setCustomTexture, ScreenSys.setBrightness, ScreenSys.resetToOriginal, h]

/-- Witness for C9: the unbound screen system at a concrete input. -/
theorem unbound_screen_mutations_are_noops_witness :
    sysUnbound.screen.material = none ∧
    (sysUnbound.setCustomTexture 7 = sysUnbound ∧
      sysUnbound.setBrightness (1/2) = sysUnbound ∧
      sysUnbound.resetToOriginal = sysUnbound) :=
  ⟨rfl, unbound_screen_mutations_are_noops sysUnbound 7 (1/2) rfl⟩

/- Helper lemma for the capture and preview restore protocol. -/

theorem restoreCams_map (l : List CamVisual) (f : CamVisual → CamVisual) :
    restoreCams l (l.map f) = l := by
  induction l with
  | nil => rfl
  | cons a t ih => simp [restoreCams, ih]

theorem restoreCams_replicate (l : List CamVisual) (c : CamVisual) :
    restoreCams l (List.replicate l.length c) = l := by
  induction l with
  | nil => rfl
  | cons a t ih => simp [restoreCams, ih, List.replicate_succ]

/-- Claim C1 (error_handling, corrected), amended part: whenever the render
and encode steps complete without throwing, capture returns with every
camera helper visibility, camera proxy visibility and the gizmo visibility
exactly as before the call, and likewise for the per-frame camera preview
render. -/
theorem capture_preview_restore_visibility_on_success (v : SceneVisuals) (isCam : Bool) :
    capture true true v = Except.ok v ∧ renderCameraPreview isCam true v = Except.ok v := by
  cases v with
  | mk cams tc =>
    refine ⟨?_, ?_⟩
    · simp [capture, hideCameraVisualsForCapture, restoreCameraVisualsAfterCapture,
        restoreCams_map, restoreCams_replicate]
    · cases isCam <;>
        simp [renderCameraPreview, hideCameraVisualsForCapture,
          restoreCameraVisualsAfterCapture, restoreCams_map, restoreCams_replicate]

/-- Counterexample for C1: with one camera whose helper and proxy are
visible and a visible gizmo, a failing render makes capture propagate the
exception while the scene is still fully hidden: the restore step never
runs, so the visibility flags do NOT equal their pre-call values. -/
theorem capture_render_failure_leaves_scene_hidden :
    capture false true visBefore = Except.error visHidden ∧ visHidden ≠ visBefore :=
  ⟨rfl, by decide⟩

/-- Claim C8 (functional_correctness, corrected), amended part: bind scans
the subtree and stores the LAST matching material in traversal order (every
match overwrites the previous one), together with its original map, emissive
map and emissive intensity (the intensity defaulting to 1 when absent or
zero, by the JS truthiness test); when no material matches, nothing is bound
and the diagnostic lists the names of all discovered materials. -/
theorem findTargetMaterial_binds_last_match (mesh : Mesh) (name : String) :
    (∀ m, lastMatch name (allMaterials mesh) = some m →
      (LEDScreen.construct mesh name none).material = some m ∧
      (LEDScreen.construct mesh name none).originalBaseColorTexture = m.map ∧
      (LEDScreen.construct mesh name none).originalEmissiveTexture = m.emissiveMap ∧
      (LEDScreen.construct mesh name none).originalEmissiveIntensity =
        jsOrOne m.emissiveIntensity) ∧
    (lastMatch name (allMaterials mesh) = none →
      (LEDScreen.construct mesh name none).material = none ∧
      logAvailableMaterials mesh =
        (allMaterials mesh).map (fun mat => if mat.name = "" then "Unnamed" else mat.name)) := by
  rw [construct_none, bindScan_eq]
  constructor
  · intro m hm
    rw [hm]
    exact ⟨rfl, rfl, rfl, rfl⟩
  · intro hm
    rw [hm]
    exact ⟨rfl, rfl⟩

/-- Counterexample for C8: a mesh whose traversal meets two materials named
M_WhiteScreen; the source stores the SECOND (last) one, not the first match
that the claim asserts. -/
theorem findTargetMaterial_stores_last_not_first :
    (LEDScreen.construct meshTwoScreens "M_WhiteScreen" none).material = some matSecond ∧
    firstMatch "M_WhiteScreen" (allMaterials meshTwoScreens) = some matFirst ∧
    matSecond ≠ matFirst :=
  ⟨rfl, rfl, by decide⟩

/- Computation lemmas for the constructor pipeline. -/

theorem construct_eq (mesh : Mesh) (name : String) (appOpt : Option AppGlobals) (m0 : Material)
    (hmatch : lastMatch name (allMaterials mesh) = some m0) :
    LEDScreen.construct mesh name appOpt =
      (applyBind m0 (LEDScreen.base name)).applyGlobalState appOpt := by
  unfold LEDScreen.construct LEDScreen.findTargetMaterial
  rw [base_materialName, bindScan_eq, hmatch]

theorem applyGlobalState_some_none (a : AppGlobals) (m : Material) (s : LEDScreen)
    (hm : s.material = some m) (hct : a.globalCustomTexture = none) :
    s.applyGlobalState (some a) =
      { s with
        material := some { m with emissiveIntensity := some a.globalBrightness }
        brightness := a.globalBrightness } := by
  simp only [LEDScreen.applyGlobalState, hm, hct]

theorem applyGlobalState_some_some (a : AppGlobals) (m : Material) (s : LEDScreen)
    (t : TextureId) (hm : s.material = some m) (hct : a.globalCustomTexture = some t) :
    s.applyGlobalState (some a) =
      { s with
        material := some
          { m with
            emissiveIntensity := some a.globalBrightness
            map := some t
            emissiveMap := a.globalCustomEmissiveTexture }
        brightness := a.globalBrightness
        currentTexture := some t } := by
  simp only [LEDScreen.applyGlobalState, hm, hct]

theorem applyGlobalState_preserves_originals (appOpt : Option AppGlobals) (s : LEDScreen) :
    (s.applyGlobalState appOpt).originalBaseColorTexture = s.originalBaseColorTexture ∧
    (s.applyGlobalState appOpt).originalEmissiveTexture = s.originalEmissiveTexture ∧
    (s.applyGlobalState appOpt).originalEmissiveIntensity = s.originalEmissiveIntensity ∧
    (s.applyGlobalState appOpt).material.isSome = s.material.isSome := by
  cases hm : s.material with
  | none => cases appOpt <;> simp [LEDScreen.applyGlobalState, hm]
  | some m =>
    cases appOpt with
    | none => simp [LEDScreen.applyGlobalState, hm]
    | some a => cases hct : a.globalCustomTexture <;>
        simp [LEDScreen.applyGlobalState, hm, hct]

/-- Claim C10 (functional_correctness, confirmed): building an LEDScreen
with an app reference is itself a mutating operation on the found material:
the emissive intensity is immediately set to the global brightness, and when
a global custom texture exists it lands in both the diffuse and emissive
slots of the bound material (the two global slots are always kept equal by
setCustomTexture and resetToOriginal, which the hypothesis hpair records). -/
theorem ledScreen_constructor_applies_globals (mesh : Mesh) (a : AppGlobals) (m0 : Material)
    (hmatch : lastMatch "M_WhiteScreen" (allMaterials mesh) = some m0)
    (hpair : a.globalCustomEmissiveTexture = a.globalCustomTexture) :
    (∃ m, (LEDScreen.construct mesh "M_WhiteScreen" (some a)).material = some m ∧
      m.emissiveIntensity = some a.globalBrightness) ∧
    (LEDScreen.construct mesh "M_WhiteScreen" (some a)).brightness = a.globalBrightness ∧
    (∀ t, a.globalCustomTexture = some t →
      ∃ m, (LEDScreen.construct mesh "M_WhiteScreen" (some a)).material = some m ∧
        m.map = some t ∧ m.emissiveMap = some t ∧
        (LEDScreen.construct mesh "M_WhiteScreen" (some a)).currentTexture = some t) := by
  have hc := construct_eq mesh "M_WhiteScreen" (some a) m0 hmatch
  cases hct : a.globalCustomTexture with
  | none =>
    rw [applyGlobalState_some_none a m0 _ rfl hct] at hc
    rw [hc]
    refine ⟨⟨_, rfl, rfl⟩, rfl, ?_⟩
    intro t ht
    exact Option.noConfusion ht
  | some t0 =>
    rw [applyGlobalState_some_some a m0 _ t0 rfl hct] at hc
    rw [hc]
    refine ⟨⟨_, rfl, rfl⟩, rfl, ?_⟩
    intro t ht
    injection ht with htt
    subst htt
    refine ⟨_, rfl, rfl, ?_, rfl⟩
    rw [hpair, hct]

/-- Witness for C10 at a concrete mesh and app state. -/
theorem ledScreen_constructor_applies_globals_witness :
    (lastMatch "M_WhiteScreen" (allMaterials newMeshW) = some matSecond ∧
      appW.globalCustomEmissiveTexture = appW.globalCustomTexture) ∧
    ((∃ m, (LEDScreen.construct newMeshW "M_WhiteScreen" (some appW)).material = some m ∧
      m.emissiveIntensity = some appW.globalBrightness) ∧
    (LEDScreen.construct newMeshW "M_WhiteScreen" (some appW)).brightness = appW.globalBrightness ∧
    (∀ t, appW.globalCustomTexture = some t →
      ∃ m, (LEDScreen.construct newMeshW "M_WhiteScreen" (some appW)).material = some m ∧
        m.map = some t ∧ m.emissiveMap = some t ∧
        (LEDScreen.construct newMeshW "M_WhiteScreen" (some appW)).currentTexture = some t)) :=
  ⟨⟨rfl, rfl⟩, ledScreen_constructor_applies_globals newMeshW appW matSecond rfl rfl⟩

/- Preservation lemmas for sequences of screen mutations. -/

theorem setCustomTexture_preserves (t : TextureId) (s : ScreenSys) :
    (s.setCustomTexture t).screen.originalBaseColorTexture = s.screen.originalBaseColorTexture ∧
    (s.setCustomTexture t).screen.originalEmissiveTexture = s.screen.originalEmissiveTexture ∧
    (s.setCustomTexture t).screen.originalEmissiveIntensity = s.screen.originalEmissiveIntensity ∧
    (s.setCustomTexture t).screen.material.isSome = s.screen.material.isSome := by
  cases hm : s.screen.material <;> simp [ScreenSys.setCustomTexture, hm]

theorem setBrightness_preserves (v : ℚ) (s : ScreenSys) :
    (s.setBrightness v).screen.originalBaseColorTexture = s.screen.originalBaseColorTexture ∧
    (s.setBrightness v).screen.originalEmissiveTexture = s.screen.originalEmissiveTexture ∧
    (s.setBrightness v).screen.originalEmissiveIntensity = s.screen.originalEmissiveIntensity ∧
    (s.setBrightness v).screen.material.isSome = s.screen.material.isSome := by
  cases hm : s.screen.material <;> simp [ScreenSys.setBrightness, hm]

theorem runScreenOps_preserves (ops : List ScreenOp) (s : ScreenSys) :
    (runScreenOps ops s).screen.originalBaseColorTexture = s.screen.originalBaseColorTexture ∧
    (runScreenOps ops s).screen.originalEmissiveTexture = s.screen.originalEmissiveTexture ∧
    (runScreenOps ops s).screen.originalEmissiveIntensity = s.screen.originalEmissiveIntensity ∧
    (runScreenOps ops s).screen.material.isSome = s.screen.material.isSome := by
  induction ops generalizing s with
  | nil => exact ⟨rfl, rfl, rfl, rfl⟩
  | cons op rest ih =>
    cases op with
    | applyTexture t =>
      have h1 := setCustomTexture_preserves t s
      have h2 := ih (s.setCustomTexture t)
      exact ⟨h2.1.trans h1.1, h2.2.1.trans h1.2.1, h2.2.2.1.trans h1.2.2.1,
        h2.2.2.2.trans h1.2.2.2⟩
    | setBrightness v =>
      have h1 := setBrightness_preserves v s
      have h2 := ih (s.setBrightness v)
      exact ⟨h2.1.trans h1.1, h2.2.1.trans h1.2.1, h2.2.2.1.trans h1.2.2.1,
        h2.2.2.2.trans h1.2.2.2⟩

theorem resetToOriginal_spec (s : ScreenSys) (m1 : Material) (h : s.screen.material = some m1) :
    (s.resetToOriginal).screen.material = some
      { m1 with
        map := s.screen.originalBaseColorTexture
        emissiveMap := s.screen.originalEmissiveTexture
        emissiveIntensity := some s.screen.originalEmissiveIntensity } ∧
    (s.resetToOriginal).screen.currentTexture = none := by
  simp [ScreenSys.resetToOriginal, h]

/-- Claim C4 (algebraic_relational, confirmed): for a screen bound at
construction time, after ANY finite sequence of applyTexture / setBrightness
calls, resetToOriginal restores the material map, emissive map and emissive
intensity to exactly the values captured at bind time (the last three
conjuncts spell out what bind captured from the matched material, including
the JS `|| 1` default on the intensity) and clears the current-custom-texture
pointer. -/
theorem resetToOriginal_roundtrip (mesh : Mesh) (name : String) (a0 : Option AppGlobals)
    (m0 : Material) (ops : List ScreenOp)
    (hmatch : lastMatch name (allMaterials mesh) = some m0) :
    ∃ m, (ScreenSys.resetToOriginal (runScreenOps ops
        { screen := LEDScreen.construct mesh name a0, app := a0 })).screen.material = some m ∧
      m.map = (LEDScreen.construct mesh name a0).originalBaseColorTexture ∧
      m.emissiveMap = (LEDScreen.construct mesh name a0).originalEmissiveTexture ∧
      m.emissiveIntensity = some (LEDScreen.construct mesh name a0).originalEmissiveIntensity ∧
      (ScreenSys.resetToOriginal (runScreenOps ops
        { screen := LEDScreen.construct mesh name a0, app := a0 })).screen.currentTexture = none ∧
      (LEDScreen.construct mesh name a0).originalBaseColorTexture = m0.map ∧
      (LEDScreen.construct mesh name a0).originalEmissiveTexture = m0.emissiveMap ∧
      (LEDScreen.construct mesh name a0).originalEmissiveIntensity = jsOrOne m0.emissiveIntensity := by
  have hcon := construct_eq mesh name a0 m0 hmatch
  have hglob := applyGlobalState_preserves_originals a0 (applyBind m0 (LEDScreen.base name))
  rw [← hcon] at hglob
  have hpres := runScreenOps_preserves ops
    { screen := LEDScreen.construct mesh name a0, app := a0 }
  have hsome : (runScreenOps ops
      { screen := LEDScreen.construct mesh name a0, app := a0 }).screen.material.isSome = true := by
    rw [hpres.2.2.2]
    show (LEDScreen.construct mesh name a0).material.isSome = true
    rw [hglob.2.2.2]
    rfl
  obtain ⟨m1, hm1⟩ := Option.isSome_iff_exists.mp hsome
  have hreset := resetToOriginal_spec _ m1 hm1
  refine ⟨_, hreset.1, ?_, ?_, ?_, hreset.2, ?_, ?_, ?_⟩
  · exact hpres.1
  · exact hpres.2.1
  · rw [hpres.2.2.1]
  · exact hglob.1
  · exact hglob.2.1
  · exact hglob.2.2.1

/-- Witness for C4: a concrete bound screen, two texture swaps and a
brightness change, then reset. -/
theorem resetToOriginal_roundtrip_witness :
    (lastMatch "M_WhiteScreen" (allMaterials meshTwoScreens) = some matSecond) ∧
    (∃ m, (ScreenSys.resetToOriginal (runScreenOps
        [ScreenOp.applyTexture 5, ScreenOp.setBrightness 2, ScreenOp.applyTexture 6]
        { screen := LEDScreen.construct meshTwoScreens "M_WhiteScreen" none,
          app := none })).screen.material = some m ∧
      m.map = (LEDScreen.construct meshTwoScreens "M_WhiteScreen" none).originalBaseColorTexture ∧
      m.emissiveMap = (LEDScreen.construct meshTwoScreens "M_WhiteScreen" none).originalEmissiveTexture ∧
      m.emissiveIntensity = some (LEDScreen.construct meshTwoScreens "M_WhiteScreen" none).originalEmissiveIntensity ∧
      (ScreenSys.resetToOriginal (runScreenOps
        [ScreenOp.applyTexture 5, ScreenOp.setBrightness 2, ScreenOp.applyTexture 6]
        { screen := LEDScreen.construct meshTwoScreens "M_WhiteScreen" none,
          app := none })).screen.currentTexture = none ∧
      (LEDScreen.construct meshTwoScreens "M_WhiteScreen" none).originalBaseColorTexture = matSecond.map ∧
      (LEDScreen.construct meshTwoScreens "M_WhiteScreen" none).originalEmissiveTexture = matSecond.emissiveMap ∧
      (LEDScreen.construct meshTwoScreens "M_WhiteScreen" none).originalEmissiveIntensity = jsOrOne matSecond.emissiveIntensity) :=
  ⟨rfl, resetToOriginal_roundtrip meshTwoScreens "M_WhiteScreen" none matSecond
    [ScreenOp.applyTexture 5, ScreenOp.setBrightness 2, ScreenOp.applyTexture 6] rfl⟩

/-- Counterexample for C6: a concrete manager state whose environment mesh 7
is in the scene; a studio switch whose load fails returns false, yet mesh 7
has been removed from the scene and disposed, so the scene is NOT in its
pre-operation state and the previous environment is NOT still present. -/
theorem switchStudio_load_failure_drops_previous_environment :
    (switchStudio none "B" preFailState).1 = false ∧
    7 ∈ preFailState.sceneMeshes ∧
    7 ∉ (switchStudio none "B" preFailState).2.sceneMeshes ∧
    7 ∈ (switchStudio none "B" preFailState).2.disposedMeshes := by
  decide

/-- Claim C6 (error_handling, corrected), amended part: when an environment
load fails, the operation is aborted and the failure reported (false is
returned), no new subtree is inserted (the resulting scene is a subset of
the previous one), and the current-studio pointer is unchanged; but the
previous environment has ALREADY been removed from the scene (and disposed)
before the load was attempted, so the scene is left without an environment
rather than in its pre-operation state. A failed MODEL load leaves the
placed-model list unchanged, as the original claim states. -/
theorem switchStudio_load_failure_aborts_and_reports (s : ManagerState) (name : String) (m : Nat)
    (hmem : name ∈ s.availableStudios) (hcur : s.currentStudioMesh = some m) :
    (switchStudio none name s).1 = false ∧
    (switchStudio none name s).2.sceneMeshes = s.sceneMeshes.erase m ∧
    (switchStudio none name s).2.currentStudio = s.currentStudio ∧
    (∀ x ∈ (switchStudio none name s).2.sceneMeshes, x ∈ s.sceneMeshes) ∧
    (∀ placed : List Nat, loadGLTFModel none placed = placed) := by
  have hred : switchStudio none name s =
      (false,
        { s with
          sceneMeshes := s.sceneMeshes.erase m
          disposedMeshes := m :: s.disposedMeshes }) := by
    simp only [switchStudio, if_pos hmem, hcur]
  rw [hred]
  refine ⟨rfl, rfl, rfl, ?_, fun _ => rfl⟩
  intro x hx
  exact List.mem_of_mem_erase hx

/-- Witness for C6 at the concrete failing switch. -/
theorem switchStudio_load_failure_aborts_and_reports_witness :
    ("B" ∈ preFailState.availableStudios ∧ preFailState.currentStudioMesh = some 7) ∧
    ((switchStudio none "B" preFailState).1 = false ∧
      (switchStudio none "B" preFailState).2.sceneMeshes = preFailState.sceneMeshes.erase 7 ∧
      (switchStudio none "B" preFailState).2.currentStudio = preFailState.currentStudio ∧
      (∀ x ∈ (switchStudio none "B" preFailState).2.sceneMeshes, x ∈ preFailState.sceneMeshes) ∧
      (∀ placed : List Nat, loadGLTFModel none placed = placed)) :=
  ⟨⟨by decide, rfl⟩,
    switchStudio_load_failure_aborts_and_reports preFailState "B" 7 (by decide) rfl⟩

/- Membership characterizations for the disposal pass. -/

theorem mem_foldr_append {α β : Type} (f : α → List β) (l : List α) (x : β) :
    x ∈ l.foldr (fun a acc => f a ++ acc) [] ↔ ∃ a ∈ l, x ∈ f a := by
  induction l with
  | nil => simp
  | cons a rest ih => simp [ih]

theorem mem_disposedTexturesOf (mesh : Mesh) (x : TextureId) :
    x ∈ disposedTexturesOf mesh ↔
      ∃ mat, mat ∈ allMaterials mesh ∧ mat.name ≠ "M_WhiteScreen" ∧
        (mat.map = some x ∨ mat.normalMap = some x ∨ mat.emissiveMap = some x) := by
  unfold disposedTexturesOf
  rw [mem_foldr_append]
  constructor
  · rintro ⟨mat, hmat, hx⟩
    by_cases h : mat.name = "M_WhiteScreen"
    · rw [if_pos h] at hx
      cases hx
    · rw [if_neg h] at hx
      refine ⟨mat, hmat, h, ?_⟩
      rcases List.mem_filterMap.mp hx with ⟨o, ho, hox⟩
      simp only [List.mem_cons, List.not_mem_nil, or_false] at ho
      rcases ho with rfl | rfl | rfl
      · exact Or.inl hox
      · exact Or.inr (Or.inl hox)
      · exact Or.inr (Or.inr hox)
  · rintro ⟨mat, hmat, hn, hslot⟩
    refine ⟨mat, hmat, ?_⟩
    rw [if_neg hn]
    apply List.mem_filterMap.mpr
    rcases hslot with h | h | h
    · exact ⟨mat.map, by simp, h⟩
    · exact ⟨mat.normalMap, by simp, h⟩
    · exact ⟨mat.emissiveMap, by simp, h⟩

/-- Claim C3 (functional_correctness, confirmed): a studio switch performed
while a custom texture t is applied (the app globals hold it in both slots,
which setCustomTexture guarantees) and the brightness is b yields a newly
bound screen whose material carries brightness b and the very same texture
id t in both the diffuse and emissive slots (reference equality becomes id
equality in the embedding); every geometry of the old studio is disposed,
every old material object is disposed, the only textures disposed are those
referenced by NON-screen materials of the old studio, and hence the
LED-screen material textures are not disposed as long as no non-screen
material shares them. -/
theorem studio_switch_preserves_screen_and_disposes_old
    (a : AppGlobals) (old newMesh : Mesh) (t : TextureId) (b : ℚ) (m0 : Material)
    (ht : a.globalCustomTexture = some t)
    (hpair : a.globalCustomEmissiveTexture = some t)
    (hb : a.globalBrightness = b)
    (hmatch : lastMatch "M_WhiteScreen" (allMaterials newMesh) = some m0) :
    (∃ m, (onStudioChange a (some old) newMesh).ledScreen.material = some m ∧
      m.map = some t ∧ m.emissiveMap = some t ∧ m.emissiveIntensity = some b) ∧
    (onStudioChange a (some old) newMesh).ledScreen.brightness = b ∧
    (onStudioChange a (some old) newMesh).ledScreen.currentTexture = some t ∧
    (∀ g ∈ allGeometries old, g ∈ (onStudioChange a (some old) newMesh).disposedGeometries) ∧
    (∀ mat ∈ allMaterials old, mat.matId ∈ (onStudioChange a (some old) newMesh).disposedMaterials) ∧
    (∀ x ∈ (onStudioChange a (some old) newMesh).disposedTextures,
      ∃ mat, mat ∈ allMaterials old ∧ mat.name ≠ "M_WhiteScreen" ∧
        (mat.map = some x ∨ mat.normalMap = some x ∨ mat.emissiveMap = some x)) ∧
    ((∀ mat ∈ allMaterials old, mat.name ≠ "M_WhiteScreen" →
        mat.map ≠ some t ∧ mat.normalMap ≠ some t ∧ mat.emissiveMap ≠ some t) →
      t ∉ (onStudioChange a (some old) newMesh).disposedTextures) := by
  have hc := construct_eq newMesh "M_WhiteScreen" (some a) m0 hmatch
  rw [applyGlobalState_some_some a m0 _ t rfl ht] at hc
  have hred : onStudioChange a (some old) newMesh =
      { ledScreen :=
          { materialName := (applyBind m0 (LEDScreen.base "M_WhiteScreen")).materialName
            material := some
              { m0 with
                emissiveIntensity := some a.globalBrightness
                map := some t
                emissiveMap := some t }
            originalBaseColorTexture :=
              (applyBind m0 (LEDScreen.base "M_WhiteScreen")).originalBaseColorTexture
            originalEmissiveTexture :=
              (applyBind m0 (LEDScreen.base "M_WhiteScreen")).originalEmissiveTexture
            originalEmissiveIntensity :=
              (applyBind m0 (LEDScreen.base "M_WhiteScreen")).originalEmissiveIntensity
            currentTexture := some t
            brightness := a.globalBrightness }
        app := { a with globalBrightness := a.globalBrightness }
        disposedTextures := disposedTexturesOf old
        disposedMaterials := disposedMaterialIdsOf old
        disposedGeometries := disposedGeometryIdsOf old } := by
    simp [onStudioChange, hc, ht, hpair, ScreenSys.setBrightness]
  rw [hred]
  refine ⟨⟨_, rfl, rfl, by rw [hb], by rw [hb]⟩, by simp [hb], rfl, ?_, ?_, ?_, ?_⟩
  · intro g hg
    exact hg
  · intro mat hmat
    exact List.mem_map_of_mem _ hmat
  · intro x hx
    exact (mem_disposedTexturesOf old x).mp hx
  · intro hno hx
    obtain ⟨mat, hmat, hname, hslot⟩ := (mem_disposedTexturesOf old t).mp hx
    have hm := hno mat hmat hname
    rcases hslot with h | h | h
    · exact hm.1 h
    · exact hm.2.1 h
    · exact hm.2.2 h

/-- Witness for C3: a concrete switch from a two-material studio to a fresh
one, with custom texture 77 and brightness 0.7. -/
theorem studio_switch_preserves_screen_and_disposes_old_witness :
    (appW.globalCustomTexture = some 77 ∧ appW.globalCustomEmissiveTexture = some 77 ∧
      appW.globalBrightness = 7/10 ∧
      lastMatch "M_WhiteScreen" (allMaterials newMeshW) = some matSecond) ∧
    ((∃ m, (onStudioChange appW (some oldMeshW) newMeshW).ledScreen.material = some m ∧
      m.map = some 77 ∧ m.emissiveMap = some 77 ∧ m.emissiveIntensity = some (7/10)) ∧
    (onStudioChange appW (some oldMeshW) newMeshW).ledScreen.brightness = 7/10 ∧
    (onStudioChange appW (some oldMeshW) newMeshW).ledScreen.currentTexture = some 77 ∧
    (∀ g ∈ allGeometries oldMeshW,
      g ∈ (onStudioChange appW (some oldMeshW) newMeshW).disposedGeometries) ∧
    (∀ mat ∈ allMaterials oldMeshW,
      mat.matId ∈ (onStudioChange appW (some oldMeshW) newMeshW).disposedMaterials) ∧
    (∀ x ∈ (onStudioChange appW (some oldMeshW) newMeshW).disposedTextures,
      ∃ mat, mat ∈ allMaterials oldMeshW ∧ mat.name ≠ "M_WhiteScreen" ∧
        (mat.map = some x ∨ mat.normalMap = some x ∨ mat.emissiveMap = some x)) ∧
    ((∀ mat ∈ allMaterials oldMeshW, mat.name ≠ "M_WhiteScreen" →
        mat.map ≠ some 77 ∧ mat.normalMap ≠ some 77 ∧ mat.emissiveMap ≠ some 77) →
      77 ∉ (onStudioChange appW (some oldMeshW) newMeshW).disposedTextures)) :=
  ⟨⟨rfl, rfl, rfl, rfl⟩,
    studio_switch_preserves_screen_and_disposes_old appW oldMeshW newMeshW 77 (7/10)
      matSecond rfl rfl rfl rfl⟩

/- Lemmas for the placed-model highlight round trip. -/

theorem select_select (o : SceneObject) : o.select.select = o.select := by
  by_cases h : o.isSelected <;> simp [SceneObject.select, h]

theorem deselect_deselect (o : SceneObject) : o.deselect.deselect = o.deselect := by
  by_cases h : o.isSelected <;> simp [SceneObject.deselect, h]

theorem construct_children (cs : List ChildMesh) (h : ∀ c ∈ cs, c.cachedEmissive = none) :
    SceneObject.construct cs = { children := afterOps cs false, isSelected := false } := by
  unfold SceneObject.construct storeOriginalMaterials afterOps
  congr 1
  apply List.map_congr_left
  intro c hc
  rw [if_pos (h c hc)]
  simp

theorem select_afterOps (cs : List ChildMesh) (b : Bool) :
    SceneObject.select { children := afterOps cs b, isSelected := b } =
      { children := afterOps cs true, isSelected := true } := by
  cases b with
  | true => simp [SceneObject.select]
  | false =>
    simp only [SceneObject.select, Bool.false_eq_true, if_false]
    congr 1
    unfold afterOps
    rw [List.map_map]
    apply List.map_congr_left
    intro c hc
    rfl

theorem deselect_afterOps (cs : List ChildMesh) (b : Bool) :
    SceneObject.deselect { children := afterOps cs b, isSelected := b } =
      { children := afterOps cs false, isSelected := false } := by
  cases b with
  | false => simp [SceneObject.deselect]
  | true =>
    simp only [SceneObject.deselect, if_true]
    congr 1
    unfold afterOps
    rw [List.map_map]
    apply List.map_congr_left
    intro c hc
    rfl

/-- The selection flag left by a select/deselect sequence started at b. -/
def selFlagAfter (b : Bool) : List SelOp → Bool
  | [] => b
  | SelOp.sel :: rest => selFlagAfter true rest
  | SelOp.desel :: rest => selFlagAfter false rest

theorem runSelOps_afterOps (cs : List ChildMesh) (ops : List SelOp) (b : Bool) :
    runSelOps ops { children := afterOps cs b, isSelected := b } =
      { children := afterOps cs (selFlagAfter b ops), isSelected := selFlagAfter b ops } := by
  induction ops generalizing b with
  | nil => rfl
  | cons op rest ih =>
    cases op with
    | sel =>
      show runSelOps rest (SceneObject.select _) = _
      rw [select_afterOps, ih]
      rfl
    | desel =>
      show runSelOps rest (SceneObject.deselect _) = _
      rw [deselect_afterOps, ih]
      rfl

/-- Claim C5 (algebraic_relational, confirmed): select and deselect on a
placed model are idempotent, the per-child pre-highlight cache captured at
construction (from children whose userData holds no cache yet, which is how
every SceneObject in the source is built) is never changed by any
interleaved select/deselect sequence, and a final deselect restores every
child emissive color and intensity to its pre-first-select value. -/
theorem sceneObject_select_deselect_roundtrip (cs : List ChildMesh) (ops : List SelOp)
    (o : SceneObject) (h : ∀ c ∈ cs, c.cachedEmissive = none) :
    o.select.select = o.select ∧
    o.deselect.deselect = o.deselect ∧
    (runSelOps ops (SceneObject.construct cs)).children.map ChildMesh.cachedEmissive =
      (SceneObject.construct cs).children.map ChildMesh.cachedEmissive ∧
    ((runSelOps ops (SceneObject.construct cs)).deselect).children.map
        (fun c => (c.emissive, c.emissiveIntensity)) =
      cs.map (fun c => (c.emissive, c.emissiveIntensity)) := by
  have hc := construct_children cs h
  refine ⟨select_select o, deselect_deselect o, ?_, ?_⟩
  · rw [hc, runSelOps_afterOps]
    show (afterOps cs (selFlagAfter false ops)).map _ = (afterOps cs false).map _
    unfold afterOps
    rw [List.map_map, List.map_map]
    apply List.map_congr_left
    intro c hcc
    rfl
  · rw [hc, runSelOps_afterOps, deselect_afterOps]
    show (afterOps cs false).map _ = _
    unfold afterOps
    rw [List.map_map]
    apply List.map_congr_left
    intro c hcc
    rfl

/-- Witness for C5: two fresh children, a mixed sequence of five calls
ending in deselect, evaluated concretely. -/
theorem sceneObject_select_deselect_roundtrip_witness :
    (∀ c ∈ childrenW, c.cachedEmissive = none) ∧
    ((SceneObject.construct childrenW).select.select = (SceneObject.construct childrenW).select ∧
    (SceneObject.construct childrenW).deselect.deselect = (SceneObject.construct childrenW).deselect ∧
    (runSelOps [SelOp.sel, SelOp.sel, SelOp.desel, SelOp.sel, SelOp.desel]
        (SceneObject.construct childrenW)).children.map ChildMesh.cachedEmissive =
      (SceneObject.construct childrenW).children.map ChildMesh.cachedEmissive ∧
    ((runSelOps [SelOp.sel, SelOp.sel, SelOp.desel, SelOp.sel, SelOp.desel]
        (SceneObject.construct childrenW)).deselect).children.map
        (fun c => (c.emissive, c.emissiveIntensity)) =
      childrenW.map (fun c => (c.emissive, c.emissiveIntensity))) :=
  ⟨by decide,
    sceneObject_select_deselect_roundtrip childrenW
      [SelOp.sel, SelOp.sel, SelOp.desel, SelOp.sel, SelOp.desel]
      (SceneObject.construct childrenW) (by decide)⟩

/- Lemmas for the single-selection invariant. -/

theorem setSel_map_entId (b : Bool) (i : Nat) (l : List Ent) :
    (setSel b i l).map Ent.entId = l.map Ent.entId := by
  unfold setSel
  rw [List.map_map]
  apply List.map_congr_left
  intro e he
  by_cases h : e.entId = i <;> simp [h]

theorem mem_setSel {e : Ent} {b : Bool} {i : Nat} {l : List Ent} (h : e ∈ setSel b i l) :
    (e.entId = i ∧ e.isSelected = b) ∨ (e ∈ l ∧ e.entId ≠ i) := by
  unfold setSel at h
  rcases List.mem_map.mp h with ⟨e0, he0, heq⟩
  by_cases h0 : e0.entId = i
  · rw [if_pos h0] at heq
    cases heq
    exact Or.inl ⟨h0, rfl⟩
  · rw [if_neg h0] at heq
    cases heq
    exact Or.inr ⟨he0, h0⟩

theorem deselectCurrent_fields (s : SelState) :
    (deselectCurrent s).sceneObjects.map Ent.entId = s.sceneObjects.map Ent.entId ∧
    (deselectCurrent s).cinemaCameras.map Ent.entId = s.cinemaCameras.map Ent.entId ∧
    (deselectCurrent s).selectedObject = s.selectedObject := by
  cases hsel : s.selectedObject with
  | none => simp [deselectCurrent, hsel]
  | some r => cases r <;> simp [deselectCurrent, hsel, setSel_map_entId]

theorem deselectCurrent_clears (s : SelState) (hg : goodState s) :
    (∀ e ∈ (deselectCurrent s).sceneObjects, e.isSelected = false) ∧
    (∀ e ∈ (deselectCurrent s).cinemaCameras, e.isSelected = false) := by
  obtain ⟨ho, hcam, _, _⟩ := hg
  cases hsel : s.selectedObject with
  | none =>
    simp only [deselectCurrent, hsel]
    constructor
    · intro e he
      cases he2 : e.isSelected with
      | false => rfl
      | true => exact Option.noConfusion ((ho e he he2).symm.trans hsel)
    · intro e he
      cases he2 : e.isSelected with
      | false => rfl
      | true => exact Option.noConfusion ((hcam e he he2).symm.trans hsel)
  | some r =>
    cases r with
    | obj i =>
      simp only [deselectCurrent, hsel]
      constructor
      · intro e he
        rcases mem_setSel he with ⟨_, hb⟩ | ⟨hel, hne⟩
        · exact hb
        · cases he2 : e.isSelected with
          | false => rfl
          | true =>
            have h3 := (ho e hel he2).symm.trans hsel
            injection h3 with h4
            injection h4 with h5
            exact absurd h5 hne
      · intro e he
        cases he2 : e.isSelected with
        | false => rfl
        | true =>
          have h3 := (hcam e he he2).symm.trans hsel
          injection h3 with h4
          exact SelRef.noConfusion h4
    | cam i =>
      simp only [deselectCurrent, hsel]
      constructor
      · intro e he
        cases he2 : e.isSelected with
        | false => rfl
        | true =>
          have h3 := (ho e he he2).symm.trans hsel
          injection h3 with h4
          exact SelRef.noConfusion h4
      · intro e he
        rcases mem_setSel he with ⟨_, hb⟩ | ⟨hel, hne⟩
        · exact hb
        · cases he2 : e.isSelected with
          | false => rfl
          | true =>
            have h3 := (hcam e hel he2).symm.trans hsel
            injection h3 with h4
            injection h4 with h5
            exact absurd h5 hne

theorem goodState_selectObject (r : SelRef) (s : SelState) (hg : goodState s) :
    goodState (selectObject r s) := by
  by_cases heq : s.selectedObject = some r
  · simpa [selectObject, heq] using hg
  · have hclear := deselectCurrent_clears s hg
    have hids := deselectCurrent_fields s
    obtain ⟨ho, hcam, hnd1, hnd2⟩ := hg
    cases r with
    | obj i =>
      simp only [selectObject, if_neg heq]
      refine ⟨?_, ?_, ?_, ?_⟩
      · intro e he hs2
        rcases mem_setSel he with ⟨hid, _⟩ | ⟨hel, _⟩
        · rw [hid]
        · exact absurd (hclear.1 e hel) (by simp [hs2])
      · intro e he hsel2
        exact absurd (hclear.2 e he) (by simp [hsel2])
      · rw [setSel_map_entId, hids.1]
        exact hnd1
      · show ((deselectCurrent s).cinemaCameras.map Ent.entId).Nodup
        rw [hids.2.1]
        exact hnd2
    | cam i =>
      simp only [selectObject, if_neg heq]
      refine ⟨?_, ?_, ?_, ?_⟩
      · intro e he hsel2
        exact absurd (hclear.1 e he) (by simp [hsel2])
      · intro e he hs2
        rcases mem_setSel he with ⟨hid, _⟩ | ⟨hel, _⟩
        · rw [hid]
        · exact absurd (hclear.2 e hel) (by simp [hs2])
      · show ((deselectCurrent s).sceneObjects.map Ent.entId).Nodup
        rw [hids.1]
        exact hnd1
      · rw [setSel_map_entId, hids.2.1]
        exact hnd2

theorem goodState_deselectAll (s : SelState) (hg : goodState s) :
    goodState (deselectAll s) := by
  have hclear := deselectCurrent_clears s hg
  have hids := deselectCurrent_fields s
  obtain ⟨_, _, hnd1, hnd2⟩ := hg
  refine ⟨?_, ?_, ?_, ?_⟩
  · intro e he hsel2
    exact absurd (hclear.1 e he) (by simp [hsel2])
  · intro e he hsel2
    exact absurd (hclear.2 e he) (by simp [hsel2])
  · show ((deselectCurrent s).sceneObjects.map Ent.entId).Nodup
    rw [hids.1]
    exact hnd1
  · show ((deselectCurrent s).cinemaCameras.map Ent.entId).Nodup
    rw [hids.2.1]
    exact hnd2

theorem goodState_deleteSelected (s : SelState) (hg : goodState s) :
    goodState (deleteSelectedObject s) := by
  obtain ⟨ho, hcam, hnd1, hnd2⟩ := hg
  cases hsel : s.selectedObject with
  | none =>
    simp only [deleteSelectedObject, hsel]
    exact ⟨ho, hcam, hnd1, hnd2⟩
  | some r =>
    cases r with
    | obj i =>
      simp only [deleteSelectedObject, hsel]
      refine ⟨?_, ?_, ?_, ?_⟩
      · intro e he hsel2
        have hin := List.mem_of_mem_filter he
        have hne := List.of_mem_filter he
        have h3 := (ho e hin hsel2).symm.trans hsel
        injection h3 with h4
        injection h4 with h5
        simp [h5] at hne
      · intro e he hsel2
        have h3 := (hcam e he hsel2).symm.trans hsel
        injection h3 with h4
        exact SelRef.noConfusion h4
      · exact List.Nodup.sublist ((List.filter_sublist _).map Ent.entId) hnd1
      · exact hnd2
    | cam i =>
      simp only [deleteSelectedObject, hsel]
      refine ⟨?_, ?_, ?_, ?_⟩
      · intro e he hsel2
        have h3 := (ho e he hsel2).symm.trans hsel
        injection h3 with h4
        exact SelRef.noConfusion h4
      · intro e he hsel2
        have hin := List.mem_of_mem_filter he
        have hne := List.of_mem_filter he
        have h3 := (hcam e hin hsel2).symm.trans hsel
        injection h3 with h4
        injection h4 with h5
        simp [h5] at hne
      · exact hnd1
      · exact List.Nodup.sublist ((List.filter_sublist _).map Ent.entId) hnd2

theorem goodState_addSceneObject (i : Nat) (s : SelState) (hg : goodState s)
    (hfresh : i ∉ s.sceneObjects.map Ent.entId) :
    goodState (addSceneObject i s) := by
  obtain ⟨ho, hcam, hnd1, hnd2⟩ := hg
  refine ⟨?_, hcam, ?_, hnd2⟩
  · intro e he hsel2
    rcases List.mem_append.mp he with h1 | h2
    · exact ho e h1 hsel2
    · rw [List.mem_singleton] at h2
      subst h2
      cases hsel2
  · show ((s.sceneObjects ++ [({ entId := i, isSelected := false } : Ent)]).map Ent.entId).Nodup
    rw [List.map_append, List.nodup_append]
    refine ⟨hnd1, by simp, ?_⟩
    intro x hx hx2
    simp only [List.map_cons, List.map_nil, List.mem_singleton] at hx2
    subst hx2
    exact hfresh hx

theorem goodState_addCinemaCamera (i : Nat) (s : SelState) (hg : goodState s)
    (hfresh : i ∉ s.cinemaCameras.map Ent.entId) :
    goodState (addCinemaCamera i s) := by
  obtain ⟨ho, hcam, hnd1, hnd2⟩ := hg
  refine ⟨ho, ?_, hnd1, ?_⟩
  · intro e he hsel2
    rcases List.mem_append.mp he with h1 | h2
    · exact hcam e h1 hsel2
    · rw [List.mem_singleton] at h2
      subst h2
      cases hsel2
  · show ((s.cinemaCameras ++ [({ entId := i, isSelected := false } : Ent)]).map Ent.entId).Nodup
    rw [List.map_append, List.nodup_append]
    refine ⟨hnd2, by simp, ?_⟩
    intro x hx hx2
    simp only [List.map_cons, List.map_nil, List.mem_singleton] at hx2
    subst hx2
    exact hfresh hx

theorem countP_le_one_of_pointed (l : List Ent) (i : Nat)
    (hnd : (l.map Ent.entId).Nodup)
    (hall : ∀ e ∈ l, e.isSelected = true → e.entId = i) :
    l.countP (·.isSelected) ≤ 1 := by
  induction l with
  | nil => simp
  | cons e rest ih =>
    rw [List.map_cons, List.nodup_cons] at hnd
    rw [List.countP_cons]
    by_cases hsel : e.isSelected = true
    · have hei := hall e (List.mem_cons_self e rest) hsel
      have hrest : rest.countP (·.isSelected) = 0 := by
        rw [List.countP_eq_zero]
        intro e2 he2 hsel2
        apply hnd.1
        have he2i := hall e2 (List.mem_cons_of_mem _ he2) (by exact hsel2)
        have : e.entId = e2.entId := by rw [hei, he2i]
        rw [this]
        exact List.mem_map_of_mem Ent.entId he2
      rw [hrest]
      simp [hsel]
    · have hle := ih hnd.2 (fun e2 he2 h2 => hall e2 (List.mem_cons_of_mem _ he2) h2)
      simpa [hsel] using hle

theorem goodState_atMostOne (s : SelState) (hg : goodState s) : atMostOneSelected s := by
  obtain ⟨ho, hcam, hnd1, hnd2⟩ := hg
  unfold atMostOneSelected
  rw [List.countP_append]
  cases hsel : s.selectedObject with
  | none =>
    have h1 : s.sceneObjects.countP (·.isSelected) = 0 := by
      rw [List.countP_eq_zero]
      intro e he hb
      exact Option.noConfusion ((ho e he (by exact hb)).symm.trans hsel)
    have h2 : s.cinemaCameras.countP (·.isSelected) = 0 := by
      rw [List.countP_eq_zero]
      intro e he hb
      exact Option.noConfusion ((hcam e he (by exact hb)).symm.trans hsel)
    rw [h1, h2]
    omega
  | some r =>
    cases r with
    | obj i =>
      have h2 : s.cinemaCameras.countP (·.isSelected) = 0 := by
        rw [List.countP_eq_zero]
        intro e he hb
        have h3 := (hcam e he (by exact hb)).symm.trans hsel
        injection h3 with h4
        exact SelRef.noConfusion h4
      have h1 : s.sceneObjects.countP (·.isSelected) ≤ 1 := by
        apply countP_le_one_of_pointed _ i hnd1
        intro e he hb
        have h3 := (ho e he hb).symm.trans hsel
        injection h3 with h4
        injection h4 with h5
      omega
    | cam i =>
      have h1 : s.sceneObjects.countP (·.isSelected) = 0 := by
        rw [List.countP_eq_zero]
        intro e he hb
        have h3 := (ho e he (by exact hb)).symm.trans hsel
        injection h3 with h4
        exact SelRef.noConfusion h4
      have h2 : s.cinemaCameras.countP (·.isSelected) ≤ 1 := by
        apply countP_le_one_of_pointed _ i hnd2
        intro e he hb
        have h3 := (hcam e he hb).symm.trans hsel
        injection h3 with h4
        injection h4 with h5
      omega

theorem goodState_reachable (s : SelState) (h : ReachableSel s) : goodState s := by
  induction h with
  | refl =>
    exact ⟨by simp [initState], by simp [initState], by simp [initState], by simp [initState]⟩
  | tail hsteps hstep ih =>
    cases hstep with
    | select r => exact goodState_selectObject r _ ih
    | deselect => exact goodState_deselectAll _ ih
    | delete => exact goodState_deleteSelected _ ih
    | addObj i s1 hf => exact goodState_addSceneObject i _ ih hf
    | addCam i s1 hf => exact goodState_addCinemaCamera i _ ih hf

/-- Claim C2 (invariants, confirmed): in every state the SceneController can
reach by its selection-slot operations (selectObject, deselectAll,
deleteSelectedObject) and by inserting freshly constructed entities, at most
one entity across the union of all placed objects and all cinema cameras has
isSelected = true. -/
theorem reachable_at_most_one_selected (s : SelState) (h : ReachableSel s) :
    atMostOneSelected s :=
  goodState_atMostOne s (goodState_reachable s h)

/-- Witness for C2: a camera is created and selected; the reached state has
exactly one selected entity. -/
theorem reachable_at_most_one_selected_witness :
    atMostOneSelected (selectObject (SelRef.cam 1) (addCinemaCamera 1 initState)) :=
  reachable_at_most_one_selected _
    (Relation.ReflTransGen.tail
      (Relation.ReflTransGen.tail Relation.ReflTransGen.refl
        (SelStep.addCam 1 initState (by simp [initState])))
      (SelStep.select (SelRef.cam 1) (addCinemaCamera 1 initState)))

/- Numeric bounds for the default field of view. -/

theorem cos_double_sin_sq (x : ℝ) : Real.cos (2 * x) = 1 - 2 * Real.sin x ^ 2 := by
  have h1 := Real.sin_sq_add_cos_sq x
  have h2 := Real.cos_two_mul x
  linarith

theorem arctan_arg_lt : Real.arctan (6 / 25) < 19 / 80 := by
  have hpi : (3 : ℝ) < Real.pi := Real.pi_gt_three
  have hm1 : -(Real.pi / 2) < (19 / 80 : ℝ) := by linarith
  have hm2 : (19 / 80 : ℝ) < Real.pi / 2 := by linarith
  have hsin : (19 / 80 : ℝ) - (19 / 80) ^ 3 / 4 < Real.sin (19 / 80) :=
    Real.sin_gt_sub_cube (by norm_num) (by norm_num)
  have hsinh : (19 / 160 : ℝ) - (19 / 160) ^ 3 / 4 < Real.sin (19 / 160) :=
    Real.sin_gt_sub_cube (by norm_num) (by norm_num)
  have hcid : Real.cos (19 / 80) = 1 - 2 * Real.sin (19 / 160) ^ 2 := by
    have h := cos_double_sin_sq (19 / 160)
    norm_num at h
    exact h
  have hcpos : 0 < Real.cos (19 / 80) :=
    Real.cos_pos_of_mem_Ioo (Set.mem_Ioo.mpr ⟨hm1, hm2⟩)
  have htan : (6 / 25 : ℝ) < Real.tan (19 / 80) := by
    rw [Real.tan_eq_sin_div_cos, lt_div_iff₀ hcpos]
    nlinarith [hsin, hsinh, hcid,
      sq_nonneg (Real.sin (19 / 160) - (19 / 160 - (19 / 160) ^ 3 / 4))]
  have hlt := Real.arctan_strictMono htan
  rwa [Real.arctan_tan hm1 hm2] at hlt

theorem arctan_arg_gt : (2333 / 10000 : ℝ) < Real.arctan (6 / 25) := by
  have hpi : (3 : ℝ) < Real.pi := Real.pi_gt_three
  have hm1 : -(Real.pi / 2) < (2333 / 10000 : ℝ) := by linarith
  have hm2 : (2333 / 10000 : ℝ) < Real.pi / 2 := by linarith
  have hcos : 1 - (2333 / 10000 : ℝ) ^ 2 / 2 < Real.cos (2333 / 10000) :=
    Real.one_sub_sq_div_two_lt_cos (by norm_num)
  have hsin : Real.sin (2333 / 10000 : ℝ) < 2333 / 10000 := Real.sin_lt (by norm_num)
  have hcpos : 0 < Real.cos (2333 / 10000 : ℝ) :=
    Real.cos_pos_of_mem_Ioo (Set.mem_Ioo.mpr ⟨hm1, hm2⟩)
  have htan : Real.tan (2333 / 10000 : ℝ) < 6 / 25 := by
    rw [Real.tan_eq_sin_div_cos, div_lt_iff₀ hcpos]
    nlinarith [hcos, hsin]
  have hlt := Real.arctan_strictMono htan
  rwa [Real.arctan_tan hm1 hm2] at hlt

theorem computeFov_default : computeFov 24 50 = 2 * Real.arctan (6 / 25) * 180 / Real.pi := by
  unfold computeFov
  norm_num

theorem computeFov_default_bounds :
    (267 / 10 : ℝ) < computeFov 24 50 ∧ computeFov 24 50 < 1361 / 50 := by
  rw [computeFov_default]
  have ha1 := arctan_arg_lt
  have ha2 := arctan_arg_gt
  have hp1 : (3.141592 : ℝ) < Real.pi := Real.pi_gt_d6
  have hp2 : Real.pi < 3.141593 := Real.pi_lt_d6
  have hppos : (0 : ℝ) < Real.pi := Real.pi_pos
  constructor
  · rw [lt_div_iff₀ hppos]
    nlinarith
  · rw [div_lt_iff₀ hppos]
    nlinarith

/-- Counterexample for C7: at the default 50mm focal length and 24mm sensor
size the field of view is strictly below 27.25 degrees (it is close to
26.99), so it is NOT approximately 27.3 degrees: it differs from 27.3 by
more than 0.05, the tolerance of a one-decimal reading. -/
theorem fieldOfView_default_not_27_3 : (1 / 20 : ℝ) < |computeFov 24 50 - 27.3| := by
  have h := computeFov_default_bounds
  have hneg : computeFov 24 50 - 27.3 < 0 := by
    have := h.2
    norm_num at this ⊢
    linarith
  rw [abs_of_neg hneg]
  have := h.2
  norm_num at this ⊢
  linarith

/-- Claim C7 (functional_correctness, corrected), amended part: after
setFocalLength or setSensorSize the stored fieldOfView equals
2 * atan(sensorSize / (2 * focalLength)) converted to degrees; at fixed
positive sensor size the field of view strictly decreases as the focal
length increases; and at focal length 50 with sensor size 24 the value is
approximately 27.0 degrees (within 0.3), not 27.3. -/
theorem fieldOfView_formula_monotone_and_default (c : CinemaCameraSettings)
    (l sz s f₁ f₂ : ℚ) (hs : 0 < s) (hf₁ : 0 < f₁) (hlt : f₁ < f₂) :
    fieldOfView (setFocalLength l c) =
      2 * Real.arctan ((c.sensorSize : ℝ) / (2 * (l : ℝ))) * 180 / Real.pi ∧
    fieldOfView (setSensorSize sz c) =
      2 * Real.arctan ((sz : ℝ) / (2 * (c.focalLength : ℝ))) * 180 / Real.pi ∧
    computeFov s f₂ < computeFov s f₁ ∧
    |computeFov 24 50 - 27| < 3 / 10 := by
  refine ⟨rfl, rfl, ?_, ?_⟩
  · unfold computeFov
    have hs2 : (0 : ℝ) < (s : ℝ) := by exact_mod_cast hs
    have hf2 : (0 : ℝ) < (f₁ : ℝ) := by exact_mod_cast hf₁
    have hlt2 : (f₁ : ℝ) < (f₂ : ℝ) := by exact_mod_cast hlt
    have harg : (s : ℝ) / (2 * (f₂ : ℝ)) < (s : ℝ) / (2 * (f₁ : ℝ)) :=
      div_lt_div_of_pos_left hs2 (by linarith) (by linarith)
    have hmono := Real.arctan_strictMono harg
    rw [div_lt_div_iff_of_pos_right Real.pi_pos]
    linarith
  · have h := computeFov_default_bounds
    rw [abs_lt]
    constructor <;> [linarith [h.1]; linarith [h.2]]

/-- Witness for C7 at sensor size 24 and focal lengths 50 and 60. -/
theorem fieldOfView_formula_monotone_and_default_witness :
    ((0 : ℚ) < 24 ∧ (0 : ℚ) < 50 ∧ (50 : ℚ) < 60) ∧
    (fieldOfView (setFocalLength 50 camW) =
      2 * Real.arctan ((camW.sensorSize : ℝ) / (2 * ((50 : ℚ) : ℝ))) * 180 / Real.pi ∧
    fieldOfView (setSensorSize 24 camW) =
      2 * Real.arctan (((24 : ℚ) : ℝ) / (2 * (camW.focalLength : ℝ))) * 180 / Real.pi ∧
    computeFov 24 60 < computeFov 24 50 ∧
    |computeFov 24 50 - 27| < 3 / 10) :=
  ⟨⟨by norm_num, by norm_num, by norm_num⟩,
    fieldOfView_formula_monotone_and_default camW 50 24 24 50 60 (by norm_num) (by norm_num)
      (by norm_num)⟩
